import Mathlib

/-!
Shallow embedding of the collage-generator core (src/App.tsx and the type
declarations of src/unnamed/part_000).  JavaScript numbers are modelled as
rationals; every canvas-context call issued by drawCanvas is recorded as one
constructor of an operation list, with rotate angles recorded in degrees
(the source passes deg * pi / 180 to ctx.rotate, so the degree value
determines the call).
-/

namespace Collage

/-- A 2D point, in client space or in the 900x1200 canvas space. -/
structure Point where
  x : ℚ
  y : ℚ
deriving DecidableEq, Repr

/-- Per-layer transform from the type declarations: offset, uniform scale,
and rotation in degrees. -/
structure ImageTransform where
  x : ℚ
  y : ℚ
  scale : ℚ
  rotation : ℚ
deriving DecidableEq, Repr

/-- A stand-in for a DOM File object; only identity matters to the core. -/
structure File where
  id : ℕ
deriving DecidableEq, Repr

/-- The configuration record from the type declarations. -/
structure CollageConfig where
  name : String
  furigana : String
  bgColor1 : String
  bgColor2 : String
  characterImage : Option File
  overlayImage : Option File
  characterTransform : ImageTransform
  overlayTransform : ImageTransform
deriving DecidableEq, Repr

/-- A fully decoded bitmap with its natural pixel size
(an HTMLImageElement, as produced by loadImage). -/
structure DecodedImage where
  width : ℚ
  height : ℚ
deriving DecidableEq, Repr

/-- src/App.tsx INITIAL_TRANSFORM. -/
def INITIAL_TRANSFORM : ImageTransform := { x := 0, y := 0, scale := 1, rotation := 0 }

/-- One recorded 2D-context operation of drawCanvas.  rotateDeg d models
ctx.rotate(d * pi / 180); scaleBy models ctx.scale; the set operations model
assignments to context properties. -/
inductive DrawOp where
  | setFillStyle (color : String)
  | fillRect (x y w h : ℚ)
  | save
  | restore
  | translate (x y : ℚ)
  | rotateDeg (deg : ℚ)
  | scaleBy (sx sy : ℚ)
  | beginPath
  | rectPath (x y w h : ℚ)
  | clip
  | setFilter (f : String)
  | setGlobalCompositeOperation (mode : String)
  | drawImage (img : DecodedImage) (x y w h : ℚ)
  | setShadowColor (c : String)
  | setShadowBlur (b : ℚ)
  | setShadowOffsetX (v : ℚ)
  | setShadowOffsetY (v : ℚ)
  | setTextAlign (v : String)
  | setTextBaseline (v : String)
  | setFont (v : String)
  | setLineWidth (v : ℚ)
  | setStrokeStyle (v : String)
  | setLineJoin (v : String)
  | strokeText (s : String) (x y : ℚ)
  | fillText (s : String) (x y : ℚ)
deriving DecidableEq, Repr

/-- The client-space bounding rectangle of the canvas element, as returned by
getBoundingClientRect. -/
structure ClientRect where
  left : ℚ
  top : ℚ
  width : ℚ
  height : ℚ
deriving DecidableEq, Repr

/-- The canvas element: its bitmap width/height attributes, its CSS layout
rectangle, and the operations recorded since the bitmap was last reset
(assigning width or height clears the bitmap). -/
structure CanvasState where
  width : ℚ
  height : ℚ
  rect : ClientRect
  ops : List DrawOp
deriving DecidableEq, Repr

/-- The mutable state of the App component that the core handlers touch:
the configuration, the two loaded images, the drag-session state, the hover
flag, and the canvas ref (none before mount). -/
structure AppState where
  config : CollageConfig
  loadedChar : Option DecodedImage
  loadedOverlay : Option DecodedImage
  isDragging : Bool
  dragStart : Point
  initialDragTransform : Point
  isHoveringChar : Bool
  canvas : Option CanvasState
deriving DecidableEq, Repr

/-- src/App.tsx getCanvasCoordinates: maps a client position into canvas
space using the ratio of the bitmap size to the layout rectangle; yields
(0, 0) when the canvas is not mounted. -/
def getCanvasCoordinates (canvas : Option CanvasState) (clientX clientY : ℚ) : Point :=
  match canvas with
  | none => { x := 0, y := 0 }
  | some c =>
    let scaleX := c.width / c.rect.width
    let scaleY := c.height / c.rect.height
    { x := (clientX - c.rect.left) * scaleX, y := (clientY - c.rect.top) * scaleY }

/-- src/App.tsx isPointInCharacter: false without a loaded character image;
otherwise an axis-aligned box test around the moved center, using the same
base-fit scale as drawCanvas, and ignoring the rotation. -/
def isPointInCharacter (char : Option DecodedImage) (t : ImageTransform) (x y : ℚ) : Bool :=
  match char with
  | none => false
  | some img =>
    let cx := 450 + t.x
    let cy := 600 + t.y
    let imgW := img.width
    let imgH := img.height
    let margin : ℚ := 80
    let maxCharWidth := 900 - margin * 2
    let maxCharHeight := 1200 - margin * 2
    let baseScale := min (maxCharWidth / imgW) (maxCharHeight / imgH)
    let displayW := imgW * baseScale * t.scale
    let displayH := imgH * baseScale * t.scale
    decide (cx - displayW / 2 ≤ x ∧ x ≤ cx + displayW / 2 ∧
            cy - displayH / 2 ≤ y ∧ y ≤ cy + displayH / 2)

/-- A pointer event: a mouse position or the first touch position. -/
structure PointerEvent where
  isTouch : Bool
  clientX : ℚ
  clientY : ℚ
deriving DecidableEq, Repr

/-- src/App.tsx handleMouseDown: no-op without a loaded character image;
otherwise, when the mapped point hits the character box, start dragging and
capture the anchor point and the current offset. -/
def handleMouseDown (st : AppState) (e : PointerEvent) : AppState :=
  match st.loadedChar with
  | none => st
  | some _ =>
    let p := getCanvasCoordinates st.canvas e.clientX e.clientY
    if isPointInCharacter st.loadedChar st.config.characterTransform p.x p.y then
      { st with isDragging := true, dragStart := p,
                initialDragTransform :=
                  { x := st.config.characterTransform.x, y := st.config.characterTransform.y } }
    else st

/-- src/App.tsx handleMouseMove: update the hover flag for a mouse event
while not dragging; while dragging, set the character offset to the anchored
offset plus the pointer delta since the anchor point. -/
def handleMouseMove (st : AppState) (e : PointerEvent) : AppState :=
  let p := getCanvasCoordinates st.canvas e.clientX e.clientY
  let st1 :=
    if e.isTouch = false ∧ st.isDragging = false then
      { st with isHoveringChar :=
          isPointInCharacter st.loadedChar st.config.characterTransform p.x p.y }
    else st
  if st1.isDragging then
    let dx := p.x - st1.dragStart.x
    let dy := p.y - st1.dragStart.y
    { st1 with config := { st1.config with characterTransform :=
        { st1.config.characterTransform with
            x := st1.initialDragTransform.x + dx,
            y := st1.initialDragTransform.y + dy } } }
  else st1

/-- src/App.tsx handleMouseUp (also bound to mouse-leave and touch-end). -/
def handleMouseUp (st : AppState) : AppState := { st with isDragging := false }

/-- The two image fields handleFileUpload can target. -/
inductive UploadField where
  | characterImage
  | overlayImage
deriving DecidableEq, Repr

/-- src/App.tsx handleInputChange, restricted to the two image fields. -/
def setImageField (c : CollageConfig) (field : UploadField) (f : File) : CollageConfig :=
  match field with
  | .characterImage => { c with characterImage := some f }
  | .overlayImage => { c with overlayImage := some f }

/-- src/App.tsx handleFileUpload: take the first file of the input event if
any, install it in the targeted field, and reset that field's transform. -/
def handleFileUpload (c : CollageConfig) (files : List File) (field : UploadField) :
    CollageConfig :=
  match files.head? with
  | none => c
  | some f =>
    let c1 := setImageField c field f
    match field with
    | .characterImage => { c1 with characterTransform := INITIAL_TRANSFORM }
    | .overlayImage => { c1 with overlayTransform := INITIAL_TRANSFORM }

/-- drawCanvas step 1: fill the whole 900x1200 canvas with bgColor1. -/
def bgOps (c : CollageConfig) : List DrawOp :=
  [ .setFillStyle c.bgColor1, .fillRect 0 0 900 1200 ]

/-- drawCanvas step 2: the diagonal strip, a frame translated by (-100, 850)
and rotated by -10 degrees, filled with bgColor2 over x in [0, 1400],
y in [-200, 100]. -/
def stripOps (c : CollageConfig) : List DrawOp :=
  [ .save, .translate (-100) 850, .rotateDeg (-10),
    .setFillStyle c.bgColor2, .fillRect 0 (-200) 1400 300 ]

/-- drawCanvas step 3: the overlay pattern, clipped to the strip, cover
scaled, transformed by the overlay transform about (700, -50), drawn with a
grayscale-and-half-opacity filter and multiply compositing. -/
def overlayOps (ovl : Option DecodedImage) (t : ImageTransform) : List DrawOp :=
  match ovl with
  | none => []
  | some img =>
    let coverScale := max (1400 / img.width) (300 / img.height)
    let baseW := img.width * coverScale
    let baseH := img.height * coverScale
    [ .beginPath, .rectPath 0 (-200) 1400 300, .clip,
      .save, .translate 700 (-50),
      .translate t.x t.y,
      .rotateDeg t.rotation,
      .scaleBy t.scale t.scale,
      .setFilter "grayscale(100%) opacity(0.5)",
      .setGlobalCompositeOperation "multiply",
      .drawImage img (-(baseW / 2)) (-(baseH / 2)) baseW baseH,
      .restore ]

/-- drawCanvas step 4, base scale: fit the character image inside the
80-unit margin (margin 80, so 900 - 80 * 2 by 1200 - 80 * 2 available). -/
def charBaseScale (img : DecodedImage) : ℚ :=
  min ((900 - 80 * 2) / img.width) ((1200 - 80 * 2) / img.height)

/-- drawCanvas step 4, base drawn width. -/
def charBaseDrawW (img : DecodedImage) : ℚ := img.width * charBaseScale img

/-- drawCanvas step 4, base drawn height. -/
def charBaseDrawH (img : DecodedImage) : ℚ := img.height * charBaseScale img

/-- drawCanvas step 4: the character layer, translated to the canvas center
plus the character offset, rotated, scaled, drop-shadowed, and drawn
centered at the transformed origin at its contain-scaled size. -/
def charOps (char : Option DecodedImage) (t : ImageTransform) : List DrawOp :=
  match char with
  | none => []
  | some img =>
    [ .save,
      .translate (900 / 2 + t.x) (1200 / 2 + t.y),
      .rotateDeg t.rotation,
      .scaleBy t.scale t.scale,
      .setShadowColor "rgba(0,0,0,0.2)",
      .setShadowBlur 20,
      .setShadowOffsetX 5,
      .setShadowOffsetY 10,
      .drawImage img (-(charBaseDrawW img / 2)) (-(charBaseDrawH img / 2))
        (charBaseDrawW img) (charBaseDrawH img),
      .restore ]

/-- drawCanvas step 5, furigana block: skipped when the string is empty,
otherwise stroked white then filled dark gray at (width / 2, 80). -/
def furiganaOps (s : String) : List DrawOp :=
  if s = "" then []
  else
    [ .setFont "bold 40px \x27M PLUS Rounded 1c\x27", .setLineWidth 6, .setStrokeStyle "white",
      .strokeText s (900 / 2) 80,
      .setFillStyle "#555", .fillText s (900 / 2) 80 ]

/-- drawCanvas step 5, name block: skipped when the string is empty,
otherwise stroked white with a heavier round-joined outline then filled
near-black at (width / 2, 180). -/
def nameOps (s : String) : List DrawOp :=
  if s = "" then []
  else
    [ .setFont "800 120px \x27M PLUS Rounded 1c\x27", .setLineWidth 15, .setStrokeStyle "white",
      .setLineJoin "round",
      .strokeText s (900 / 2) 180,
      .setFillStyle "#333", .fillText s (900 / 2) 180 ]

/-- drawCanvas step 5: the text layer. -/
def textOps (c : CollageConfig) : List DrawOp :=
  [ .save, .setTextAlign "center", .setTextBaseline "middle" ]
  ++ furiganaOps c.furigana ++ nameOps c.name ++ [ .restore ]

/-- The full ordered operation list drawCanvas records for one call, as a
function of the configuration and the two loaded images only. -/
def drawCanvasOps (c : CollageConfig) (char ovl : Option DecodedImage) : List DrawOp :=
  bgOps c ++ stripOps c ++ overlayOps ovl c.overlayTransform ++ [ .restore ]
  ++ charOps char c.characterTransform ++ textOps c

/-- src/App.tsx drawCanvas on the app state: returns unchanged when no
canvas is mounted; otherwise assigning width = 900 and height = 1200 resets
the bitmap, and the whole scene is re-recorded from scratch. -/
def drawCanvas (st : AppState) : AppState :=
  match st.canvas with
  | none => st
  | some cv =>
    let cv1 : CanvasState :=
      { cv with width := 900, height := 1200,
                ops := drawCanvasOps st.config st.loadedChar st.loadedOverlay }
    { st with canvas := some cv1 }

end Collage

namespace Collage

/-- C3: the coordinate mapper returns
((pointerX - left) * (900 / width), (pointerY - top) * (1200 / height)) for a
mounted 900x1200 canvas, never signals an error, returns (0, 0) when the
canvas is not mounted, and at half display resolution a pointer delta of 10
display units maps to a canvas-space delta of 20 units. -/
theorem C3_getCanvasCoordinates_spec (cv : CanvasState)
    (hw : cv.width = 900) (hh : cv.height = 1200) :
    (∀ px py : ℚ, getCanvasCoordinates (some cv) px py =
        { x := (px - cv.rect.left) * (900 / cv.rect.width),
          y := (py - cv.rect.top) * (1200 / cv.rect.height) }) ∧
    (∀ px py : ℚ, getCanvasCoordinates none px py = { x := 0, y := 0 }) ∧
    (cv.rect.width = 450 →
      ∀ px py : ℚ,
        (getCanvasCoordinates (some cv) (px + 10) py).x -
          (getCanvasCoordinates (some cv) px py).x = 20) := by
  refine ⟨fun px py => ?_, fun px py => rfl, fun h450 px py => ?_⟩
  · simp [getCanvasCoordinates, hw, hh]
  · simp [getCanvasCoordinates, hw, h450]
    ring_nf

theorem C3_witness :
    (getCanvasCoordinates (some ⟨900, 1200, ⟨0, 0, 450, 600⟩, []⟩) (5 + 10) 7).x -
      (getCanvasCoordinates (some ⟨900, 1200, ⟨0, 0, 450, 600⟩, []⟩) 5 7).x = 20 :=
  (C3_getCanvasCoordinates_spec ⟨900, 1200, ⟨0, 0, 450, 600⟩, []⟩ rfl rfl).2.2 rfl 5 7

/-- C4: the render pipeline is deterministic and history-free: for the same
configuration and decoded images, the recorded raster operations are the
same on any two prior canvas states and any other component state, and equal
the operation list fully re-derived from those inputs alone. -/
theorem C4_render_deterministic (c : CollageConfig) (chr ovl : Option DecodedImage)
    (cv₁ cv₂ : CanvasState) (d₁ d₂ : Bool) (ds₁ ds₂ idt₁ idt₂ : Point) (h₁ h₂ : Bool) :
    (drawCanvas ⟨c, chr, ovl, d₁, ds₁, idt₁, h₁, some cv₁⟩).canvas.map CanvasState.ops =
      (drawCanvas ⟨c, chr, ovl, d₂, ds₂, idt₂, h₂, some cv₂⟩).canvas.map CanvasState.ops ∧
    (drawCanvas ⟨c, chr, ovl, d₁, ds₁, idt₁, h₁, some cv₁⟩).canvas.map CanvasState.ops =
      some (drawCanvasOps c chr ovl) :=
  ⟨rfl, rfl⟩

/-- C5: with both images absent the recorded output is exactly background
fill, accent band (with its closing restore), and text layer, for every
value of the two transforms; a missing image just skips that layer. -/
theorem C5_both_images_absent (c : CollageConfig) (t u : ImageTransform) :
    drawCanvasOps c none none = bgOps c ++ stripOps c ++ [DrawOp.restore] ++ textOps c ∧
    drawCanvasOps { c with characterTransform := t, overlayTransform := u } none none =
      drawCanvasOps c none none := by
  obtain ⟨n, f, b1, b2, ci, oi, ct, ot⟩ := c
  exact ⟨by simp [drawCanvasOps, overlayOps, charOps], rfl⟩

/-- C8: rendering only reads its inputs: after drawCanvas, the whole
configuration (every field) and both loaded bitmaps are unchanged. -/
theorem C8_render_no_side_effects (st : AppState) :
    (drawCanvas st).config = st.config ∧
    (drawCanvas st).loadedChar = st.loadedChar ∧
    (drawCanvas st).loadedOverlay = st.loadedOverlay ∧
    (drawCanvas st).config.name = st.config.name ∧
    (drawCanvas st).config.furigana = st.config.furigana ∧
    (drawCanvas st).config.bgColor1 = st.config.bgColor1 ∧
    (drawCanvas st).config.bgColor2 = st.config.bgColor2 ∧
    (drawCanvas st).config.characterImage = st.config.characterImage ∧
    (drawCanvas st).config.overlayImage = st.config.overlayImage ∧
    (drawCanvas st).config.characterTransform = st.config.characterTransform ∧
    (drawCanvas st).config.overlayTransform = st.config.overlayTransform := by
  cases h : st.canvas <;> simp [drawCanvas, h]

/-- C9: uploading a file installs it in the targeted field and resets that
field's transform to the identity, leaving every other configuration field
unchanged; an event carrying no file changes nothing. -/
theorem C9_file_upload_resets_transform (c : CollageConfig) (f : File) (rest : List File) :
    handleFileUpload c (f :: rest) UploadField.characterImage =
      { c with characterImage := some f, characterTransform := INITIAL_TRANSFORM } ∧
    handleFileUpload c (f :: rest) UploadField.overlayImage =
      { c with overlayImage := some f, overlayTransform := INITIAL_TRANSFORM } ∧
    (handleFileUpload c (f :: rest) UploadField.characterImage).overlayImage = c.overlayImage ∧
    (handleFileUpload c (f :: rest) UploadField.characterImage).overlayTransform =
      c.overlayTransform ∧
    (handleFileUpload c (f :: rest) UploadField.characterImage).name = c.name ∧
    (handleFileUpload c (f :: rest) UploadField.characterImage).furigana = c.furigana ∧
    (handleFileUpload c (f :: rest) UploadField.characterImage).bgColor1 = c.bgColor1 ∧
    (handleFileUpload c (f :: rest) UploadField.characterImage).bgColor2 = c.bgColor2 ∧
    (∀ field : UploadField, handleFileUpload c [] field = c) ∧
    INITIAL_TRANSFORM = ⟨0, 0, 1, 0⟩ :=
  ⟨rfl, rfl, rfl, rfl, rfl, rfl, rfl, rfl, fun _ => rfl, rfl⟩

/-- C10: with no loaded character image the hit test rejects every point,
pointer-down leaves the whole state unchanged (so the controller stays Idle
and the character transform is untouched), and pointer-move keeps the
controller Idle and the character transform unchanged. -/
theorem C10_no_image_no_drag (cfg : CollageConfig) (ovl : Option DecodedImage)
    (ds idt : Point) (hov : Bool) (cv : Option CanvasState) :
    (∀ (t : ImageTransform) (x y : ℚ), isPointInCharacter none t x y = false) ∧
    (∀ e : PointerEvent,
        handleMouseDown ⟨cfg, none, ovl, false, ds, idt, hov, cv⟩ e =
          ⟨cfg, none, ovl, false, ds, idt, hov, cv⟩) ∧
    (∀ e : PointerEvent,
        (handleMouseMove ⟨cfg, none, ovl, false, ds, idt, hov, cv⟩ e).isDragging = false ∧
        (handleMouseMove ⟨cfg, none, ovl, false, ds, idt, hov, cv⟩ e).config.characterTransform =
          cfg.characterTransform) := by
  refine ⟨fun t x y => rfl, fun e => rfl, fun e => ?_⟩
  cases hT : e.isTouch <;> simp [handleMouseMove, isPointInCharacter, hT]

/-- C7: the text layer is recorded last; the furigana block comes before the
name block; each block is skipped exactly when its string is empty, and a
nonempty string is stroked white then filled (dark gray for the furigana,
near-black with the heavier round-joined outline for the name), centered at
x = 450. -/
theorem C7_text_layer_spec :
    (∀ (c : CollageConfig) (chr ovl : Option DecodedImage),
        drawCanvasOps c chr ovl =
          (bgOps c ++ stripOps c ++ overlayOps ovl c.overlayTransform ++ [DrawOp.restore] ++
            charOps chr c.characterTransform) ++ textOps c) ∧
    (∀ c : CollageConfig,
        textOps c = [DrawOp.save, DrawOp.setTextAlign "center", DrawOp.setTextBaseline "middle"]
          ++ furiganaOps c.furigana ++ nameOps c.name ++ [DrawOp.restore]) ∧
    furiganaOps "" = [] ∧ nameOps "" = [] ∧
    (∀ s : String, s ≠ "" → furiganaOps s =
        [ DrawOp.setFont "bold 40px \x27M PLUS Rounded 1c\x27", DrawOp.setLineWidth 6,
          DrawOp.setStrokeStyle "white", DrawOp.strokeText s 450 80,
          DrawOp.setFillStyle "#555", DrawOp.fillText s 450 80 ]) ∧
    (∀ s : String, s ≠ "" → nameOps s =
        [ DrawOp.setFont "800 120px \x27M PLUS Rounded 1c\x27", DrawOp.setLineWidth 15,
          DrawOp.setStrokeStyle "white", DrawOp.setLineJoin "round",
          DrawOp.strokeText s 450 180,
          DrawOp.setFillStyle "#333", DrawOp.fillText s 450 180 ]) := by
  refine ⟨fun c chr ovl => rfl, fun c => rfl, rfl, rfl, fun s hs => ?_, fun s hs => ?_⟩
  · rw [furiganaOps, if_neg hs]; norm_num
  · rw [nameOps, if_neg hs]; norm_num

theorem C7_witness :
    furiganaOps "A" =
      [ DrawOp.setFont "bold 40px \x27M PLUS Rounded 1c\x27", DrawOp.setLineWidth 6,
        DrawOp.setStrokeStyle "white", DrawOp.strokeText "A" 450 80,
        DrawOp.setFillStyle "#555", DrawOp.fillText "A" 450 80 ] :=
  C7_text_layer_spec.2.2.2.2.1 "A" (by decide)

end Collage

namespace Collage

/-- The hit box exactly as the spec words it: the axis-aligned box of width
w * baseScale * scale and height h * baseScale * scale centered at
(450 + t.x, 600 + t.y), where baseScale = min((900 - 160)/w, (1200 - 160)/h);
no rotation enters the test. -/
def specInsidePrimaryBox (img : DecodedImage) (t : ImageTransform) (x y : ℚ) : Prop :=
  let baseScale := min ((900 - 160) / img.width) ((1200 - 160) / img.height)
  |x - (450 + t.x)| ≤ img.width * baseScale * t.scale / 2 ∧
  |y - (600 + t.y)| ≤ img.height * baseScale * t.scale / 2

/-- C1: for every point and transform the hit test agrees with the
axis-aligned spec box (never rotated); with transform (100, 0, 1, 0) the
point (550, 600) is inside, and a point 1 unit outside the computed
half-width or half-height on either axis is outside. -/
theorem C1_hit_test_spec (img : DecodedImage) (hw : 0 < img.width) (hh : 0 < img.height) :
    (∀ (t : ImageTransform) (x y : ℚ),
        isPointInCharacter (some img) t x y = true ↔ specInsidePrimaryBox img t x y) ∧
    isPointInCharacter (some img) ⟨100, 0, 1, 0⟩ 550 600 = true ∧
    isPointInCharacter (some img) ⟨100, 0, 1, 0⟩
      (550 + (charBaseDrawW img / 2 + 1)) 600 = false ∧
    isPointInCharacter (some img) ⟨100, 0, 1, 0⟩
      (550 - (charBaseDrawW img / 2 + 1)) 600 = false ∧
    isPointInCharacter (some img) ⟨100, 0, 1, 0⟩
      550 (600 + (charBaseDrawH img / 2 + 1)) = false ∧
    isPointInCharacter (some img) ⟨100, 0, 1, 0⟩
      550 (600 - (charBaseDrawH img / 2 + 1)) = false := by
  have hw0 : img.width ≠ 0 := ne_of_gt hw
  have hh0 : img.height ≠ 0 := ne_of_gt hh
  have hbs : 0 < min ((740 : ℚ) / img.width) (1040 / img.height) :=
    lt_min (by positivity) (by positivity)
  have hcs : charBaseScale img = min ((740 : ℚ) / img.width) (1040 / img.height) := by
    rw [charBaseScale]; norm_num
  have hiff : ∀ (t : ImageTransform) (x y : ℚ),
      isPointInCharacter (some img) t x y = true ↔ specInsidePrimaryBox img t x y := by
    intro t x y
    simp only [isPointInCharacter, specInsidePrimaryBox, decide_eq_true_eq, abs_le]
    norm_num
    constructor
    · rintro ⟨h1, h2, h3, h4⟩
      exact ⟨⟨by linarith, by linarith⟩, by linarith, by linarith⟩
    · rintro ⟨⟨h1, h2⟩, h3, h4⟩
      exact ⟨by linarith, by linarith, by linarith, by linarith⟩
  refine ⟨hiff, ?_, ?_, ?_, ?_, ?_⟩
  · apply (hiff _ _ _).mpr
    simp only [specInsidePrimaryBox]
    norm_num
    constructor <;> nlinarith [hbs.le, hw.le, hh.le]
  all_goals
    simp only [isPointInCharacter, decide_eq_false_iff_not]
    norm_num [charBaseDrawW, charBaseDrawH, hcs] <;> intros <;> linarith

theorem C1_witness :
    isPointInCharacter (some ⟨200, 300⟩) ⟨100, 0, 1, 0⟩ 550 600 = true :=
  (C1_hit_test_spec ⟨200, 300⟩ (by decide) (by decide)).2.1

end Collage

namespace Collage

/-- C2: a pointer-down whose mapped canvas point hits the character box
starts a drag capturing the anchor point and the current offset; while
dragging, each pointer-move sets the offset to the captured offset plus the
pointer delta exactly (no clamping), leaving scale and rotation alone;
pointer-up (also bound to pointer-leave) always returns to Idle; the new
offset depends only on the anchor of the current session and the current
point, so re-dragging cannot accumulate drift. -/
theorem C2_drag_session (cfg : CollageConfig) (img : DecodedImage) (ovl : Option DecodedImage)
    (cv : Option CanvasState) (ds idt : Point) (hov : Bool) (e1 e2 : PointerEvent)
    (hin : isPointInCharacter (some img) cfg.characterTransform
        (getCanvasCoordinates cv e1.clientX e1.clientY).x
        (getCanvasCoordinates cv e1.clientX e1.clientY).y = true) :
    (handleMouseDown ⟨cfg, some img, ovl, false, ds, idt, hov, cv⟩ e1).isDragging = true ∧
    (handleMouseDown ⟨cfg, some img, ovl, false, ds, idt, hov, cv⟩ e1).dragStart =
      getCanvasCoordinates cv e1.clientX e1.clientY ∧
    (handleMouseDown ⟨cfg, some img, ovl, false, ds, idt, hov, cv⟩ e1).initialDragTransform =
      ⟨cfg.characterTransform.x, cfg.characterTransform.y⟩ ∧
    (handleMouseMove (handleMouseDown ⟨cfg, some img, ovl, false, ds, idt, hov, cv⟩ e1)
        e2).isDragging = true ∧
    (handleMouseMove (handleMouseDown ⟨cfg, some img, ovl, false, ds, idt, hov, cv⟩ e1)
        e2).config.characterTransform.x =
      cfg.characterTransform.x +
        ((getCanvasCoordinates cv e2.clientX e2.clientY).x -
          (getCanvasCoordinates cv e1.clientX e1.clientY).x) ∧
    (handleMouseMove (handleMouseDown ⟨cfg, some img, ovl, false, ds, idt, hov, cv⟩ e1)
        e2).config.characterTransform.y =
      cfg.characterTransform.y +
        ((getCanvasCoordinates cv e2.clientX e2.clientY).y -
          (getCanvasCoordinates cv e1.clientX e1.clientY).y) ∧
    (handleMouseMove (handleMouseDown ⟨cfg, some img, ovl, false, ds, idt, hov, cv⟩ e1)
        e2).config.characterTransform.scale = cfg.characterTransform.scale ∧
    (handleMouseMove (handleMouseDown ⟨cfg, some img, ovl, false, ds, idt, hov, cv⟩ e1)
        e2).config.characterTransform.rotation = cfg.characterTransform.rotation ∧
    (∀ st : AppState, (handleMouseUp st).isDragging = false) := by
  have hd : handleMouseDown ⟨cfg, some img, ovl, false, ds, idt, hov, cv⟩ e1 =
      ⟨cfg, some img, ovl, true, getCanvasCoordinates cv e1.clientX e1.clientY,
        ⟨cfg.characterTransform.x, cfg.characterTransform.y⟩, hov, cv⟩ := by
    simp [handleMouseDown, hin]
  rw [hd]
  refine ⟨rfl, rfl, rfl, ?_, ?_, ?_, ?_, ?_, fun st => rfl⟩ <;>
    simp [handleMouseMove]

theorem C2_witness :
    (handleMouseMove
        (handleMouseDown
          ⟨⟨"n", "f", "#ffffff", "#fecdd3", none, none, ⟨0, 0, 1, 0⟩, ⟨0, 0, 1, 0⟩⟩,
            some ⟨200, 300⟩, none, false, ⟨0, 0⟩, ⟨0, 0⟩, false,
            some ⟨900, 1200, ⟨0, 0, 900, 1200⟩, []⟩⟩
          ⟨false, 450, 600⟩)
        ⟨false, 500, 650⟩).config.characterTransform.x =
      (0 : ℚ) +
        ((getCanvasCoordinates (some ⟨900, 1200, ⟨0, 0, 900, 1200⟩, []⟩) 500 650).x -
          (getCanvasCoordinates (some ⟨900, 1200, ⟨0, 0, 900, 1200⟩, []⟩) 450 600).x) :=
  (C2_drag_session ⟨"n", "f", "#ffffff", "#fecdd3", none, none, ⟨0, 0, 1, 0⟩, ⟨0, 0, 1, 0⟩⟩
    ⟨200, 300⟩ none (some ⟨900, 1200, ⟨0, 0, 900, 1200⟩, []⟩) ⟨0, 0⟩ ⟨0, 0⟩ false
    ⟨false, 450, 600⟩ ⟨false, 500, 650⟩
    (by norm_num [isPointInCharacter, getCanvasCoordinates, min_def])).2.2.2.2.1

end Collage

namespace Collage

/-- C6: with the identity transform the character layer is recorded as a
translate to the canvas center (450, 600), a zero rotation and a unit scale,
the shadow settings, and one axis-aligned image draw of size
(w * s, h * s) centered at the origin of that frame, with
s = min(740/w, 1040/h); the drawn rectangle preserves the aspect ratio,
stays inside the 80-unit margin on all four sides, and at least one
dimension exactly fills the 740 x 1040 available area; for a 200 x 300
image s = 1040/300 and the drawn size is (2080/3, 1040). -/
theorem C6_identity_transform (img : DecodedImage) (hw : 0 < img.width) (hh : 0 < img.height) :
    charOps (some img) ⟨0, 0, 1, 0⟩ =
      [ DrawOp.save, DrawOp.translate 450 600, DrawOp.rotateDeg 0, DrawOp.scaleBy 1 1,
        DrawOp.setShadowColor "rgba(0,0,0,0.2)", DrawOp.setShadowBlur 20,
        DrawOp.setShadowOffsetX 5, DrawOp.setShadowOffsetY 10,
        DrawOp.drawImage img (-(charBaseDrawW img / 2)) (-(charBaseDrawH img / 2))
          (charBaseDrawW img) (charBaseDrawH img),
        DrawOp.restore ] ∧
    charBaseDrawW img * img.height = charBaseDrawH img * img.width ∧
    charBaseDrawW img ≤ 740 ∧ charBaseDrawH img ≤ 1040 ∧
    (80 ≤ 450 - charBaseDrawW img / 2 ∧ 450 + charBaseDrawW img / 2 ≤ 820) ∧
    (80 ≤ 600 - charBaseDrawH img / 2 ∧ 600 + charBaseDrawH img / 2 ≤ 1120) ∧
    (charBaseDrawW img = 740 ∨ charBaseDrawH img = 1040) ∧
    charBaseScale ⟨200, 300⟩ = 1040 / 300 ∧
    charBaseDrawW ⟨200, 300⟩ = 2080 / 3 ∧ charBaseDrawH ⟨200, 300⟩ = 1040 := by
  have hw0 : img.width ≠ 0 := ne_of_gt hw
  have hh0 : img.height ≠ 0 := ne_of_gt hh
  have hcs : charBaseScale img = min ((740 : ℚ) / img.width) (1040 / img.height) := by
    rw [charBaseScale]; norm_num
  have hs0 : 0 < charBaseScale img := by
    rw [hcs]; exact lt_min (by positivity) (by positivity)
  have hW0 : 0 ≤ charBaseDrawW img := by
    rw [charBaseDrawW]; exact mul_nonneg hw.le hs0.le
  have hH0 : 0 ≤ charBaseDrawH img := by
    rw [charBaseDrawH]; exact mul_nonneg hh.le hs0.le
  have hWle : charBaseDrawW img ≤ 740 := by
    rw [charBaseDrawW, hcs]
    calc img.width * min ((740 : ℚ) / img.width) (1040 / img.height)
        ≤ img.width * (740 / img.width) :=
          mul_le_mul_of_nonneg_left (min_le_left _ _) hw.le
      _ = 740 := by rw [mul_comm]; exact div_mul_cancel₀ _ hw0
  have hHle : charBaseDrawH img ≤ 1040 := by
    rw [charBaseDrawH, hcs]
    calc img.height * min ((740 : ℚ) / img.width) (1040 / img.height)
        ≤ img.height * (1040 / img.height) :=
          mul_le_mul_of_nonneg_left (min_le_right _ _) hh.le
      _ = 1040 := by rw [mul_comm]; exact div_mul_cancel₀ _ hh0
  refine ⟨?_, ?_, hWle, hHle, ⟨by linarith, by linarith⟩, ⟨by linarith, by linarith⟩, ?_, ?_, ?_, ?_⟩
  · norm_num [charOps]
  · rw [charBaseDrawW, charBaseDrawH]; ring
  · rcases min_choice ((740 : ℚ) / img.width) (1040 / img.height) with hc | hc
    · left; rw [charBaseDrawW, hcs, hc, mul_comm]; exact div_mul_cancel₀ _ hw0
    · right; rw [charBaseDrawH, hcs, hc, mul_comm]; exact div_mul_cancel₀ _ hh0
  · norm_num [charBaseScale, min_def]
  · norm_num [charBaseDrawW, charBaseScale, min_def]
  · norm_num [charBaseDrawH, charBaseScale, min_def]

theorem C6_witness : charBaseDrawH ⟨200, 300⟩ = 1040 :=
  (C6_identity_transform ⟨200, 300⟩ (by decide) (by decide)).2.2.2.2.2.2.2.2.2

end Collage
